import Mathlib

/-!
# Verification of the TigerTix client-service booking core

Shallow embedding of `src/backend/client-service/models/clientModel.js`
(getAllEvents, purchaseTicket, confirmBooking) over an explicit SQLite
database state, together with proofs of the specification's claims about
the booking transaction protocol.

Modelling conventions:
* JavaScript values passed to the model layer are embedded as `JsValue`
  (numbers as exact rationals — every float relevant here is one —,
  strings, booleans, `null`, `undefined`, and `NaN` as its own constructor).
* `Number(v)` coercion is `jsNumber`; on strings it covers the trimmed
  decimal fragment (optional sign, digits, optional fractional part; the
  empty string coerces to 0); exotic forms (hex, exponent, `Infinity`)
  are not modelled and coerce to `NaN`.
* The database is a `DBState`: the `events` table rows in stored (rowid)
  order, the `bookings` table rows, and the next AUTOINCREMENT booking id.
* Each SQL statement issued through the driver is a step function;
  `confirmBooking` composes them exactly as the source's callback chain
  does. Writes inside the open transaction act on a working copy of the
  state; `COMMIT` publishes the working copy and `ROLLBACK` discards it,
  restoring the snapshot taken at `BEGIN` — this is SQLite's journal
  semantics. Driver-level failures of individual statements are injected
  through a `Faults` record so that every error branch of the source is
  reachable. The number of statements issued to the store (`accesses`)
  and whether `ROLLBACK` was issued (`rolledBack`) are recorded.
-/

deriving instance DecidableEq for Except

namespace TigerTix

/-- An embedded JavaScript value (the fragment the client model receives). -/
inductive JsValue where
  | num (q : ℚ)
  | nan
  | str (s : String)
  | bool (b : Bool)
  | null
  | undef
deriving DecidableEq, Repr

/-- Value of a digit string, most significant digit first. -/
def digitsToNat (l : List Char) : Nat :=
  l.foldl (fun a c => a * 10 + (c.toNat - 48)) 0

/-- `Number(s)` on a string, modelled on the trimmed decimal fragment:
optional sign, digits, optional `.` and fraction digits; `""` coerces
to `0`; anything else (hex, exponent, `Infinity`, garbage) is `NaN`
(`none`). -/
def parseDecString (s : String) : Option ℚ :=
  let t := s.trim
  if t = "" then some 0
  else
    let (sign, body) :=
      match t.toList with
      | '-' :: rest => ((-1 : ℚ), rest)
      | '+' :: rest => ((1 : ℚ), rest)
      | l => ((1 : ℚ), l)
    let intPart := body.takeWhile Char.isDigit
    let rest := body.dropWhile Char.isDigit
    match rest with
    | [] =>
      if intPart.isEmpty then none
      else some (sign * (digitsToNat intPart : ℚ))
    | '.' :: frac =>
      if frac.all Char.isDigit && (!intPart.isEmpty || !frac.isEmpty) then
        some (sign * ((digitsToNat intPart : ℚ)
          + (digitsToNat frac : ℚ) / ((10 : ℚ) ^ frac.length)))
      else none
    | _ => none

/-- `Number(v)`: JavaScript numeric coercion; `none` is `NaN`. -/
def jsNumber : JsValue → Option ℚ
  | .num q => some q
  | .nan => none
  | .str s => parseDecString s
  | .bool b => some (if b then 1 else 0)
  | .null => some 0
  | .undef => none

/-- JavaScript truthiness of a value. -/
def truthy : JsValue → Bool
  | .num q => decide (q ≠ 0)
  | .nan => false
  | .str s => !(s == "")
  | .bool b => b
  | .null => false
  | .undef => false

/-- JavaScript `a || b`. -/
def jsOr (a b : JsValue) : JsValue := if truthy a then a else b

/-- The check `Number.isInteger(parsed) && parsed > 0` applied to a
coerced value (`none` = `NaN`, which is not an integer). -/
def isPosIntNum : Option ℚ → Bool
  | none => false
  | some q => q.den == 1 && decide (0 < q)

/-- Integer value of a validated coercion result (0 as an unreachable
default for `NaN`). -/
def numOf : Option ℚ → Int
  | none => 0
  | some q => q.num

/-- A row of the `events` table. -/
structure EventRow where
  id : Int
  name : String
  date : String
  tickets : Int
deriving DecidableEq, Repr

/-- A row of the `bookings` table (`created_at` is wall-clock metadata
and is not modelled). -/
structure BookingRow where
  id : Int
  event_id : Int
  quantity : Int
  customer_name : JsValue
deriving DecidableEq, Repr

/-- The shared SQLite database: `events` rows in stored (rowid) order,
`bookings` rows, and the next AUTOINCREMENT id for `bookings`. -/
structure DBState where
  events : List EventRow
  bookings : List BookingRow
  nextBookingId : Int
deriving DecidableEq, Repr

/-- The SQL statements `confirmBooking` can issue inside a transaction. -/
inductive TxStep where
  | sBegin
  | sSelect
  | sUpdate
  | sInsert
  | sCommit
deriving DecidableEq, Repr

/-- The rejection values of the client model, one constructor per
`reject` site of the source; `storage` is a raw driver error passed
through unchanged. -/
inductive BookingError where
  | invalidId
  | invalidQty
  | notFound
  | insufficient (available : Int) (eventName : String)
  | storage (step : TxStep)
deriving DecidableEq, Repr

/-- The HTTP-ish `status` field of the rejection object (`none` for raw
driver errors, which carry no status). -/
def errStatus : BookingError → Option Nat
  | .invalidId => some 400
  | .invalidQty => some 400
  | .notFound => some 404
  | .insufficient _ _ => some 400
  | .storage _ => none

/-- The `message` field of the rejection object, exactly the source's
strings (`none` for raw driver errors, whose text the driver supplies). -/
def errMessage : BookingError → Option String
  | .invalidId => some "Invalid event id"
  | .invalidQty => some "Ticket quantity must be a positive integer"
  | .notFound => some "Event not found"
  | .insufficient t n =>
    some ("Only " ++ toString t ++ " tickets remaining for " ++ n)
  | .storage _ => none

/-- The success payload of `confirmBooking`. -/
structure EventSnapshot where
  id : Int
  name : String
  date : String
deriving DecidableEq, Repr

structure Confirmation where
  bookingId : Int
  event : EventSnapshot
  requestedTickets : Int
  remainingTickets : Int
deriving DecidableEq, Repr

/-- Injected driver failures, one flag per statement of the transaction. -/
structure Faults where
  beginErr : Bool
  selectErr : Bool
  updateErr : Bool
  insertErr : Bool
  commitErr : Bool
deriving DecidableEq, Repr

/-- The fault-free driver. -/
def Faults.none : Faults := ⟨false, false, false, false, false⟩

/-- Result of one `confirmBooking` call: the settled promise, the
committed database state afterwards, the number of SQL statements issued,
and whether a `ROLLBACK` statement was issued. -/
structure Outcome where
  result : Except BookingError Confirmation
  state : DBState
  accesses : Nat
  rolledBack : Bool
deriving DecidableEq, Repr

/-- `SELECT ... FROM events WHERE id = ?`: first row with the given id. -/
def findEvent (events : List EventRow) (i : Int) : Option EventRow :=
  events.find? (fun r => r.id == i)

/-- `UPDATE events SET tickets = tickets - ? WHERE id = ?`: decrement
every row matching the id (the `WHERE` clause tests the id only). -/
def sqlUpdateDecrement (events : List EventRow) (qty i : Int) : List EventRow :=
  events.map (fun r => if r.id == i then { r with tickets := r.tickets - qty } else r)

/-- Modelled from the spec (§4.1 step 5), for comparison with the
source's statement: the guarded update
`UPDATE events SET tickets = tickets - ? WHERE id = ? AND tickets >= ?`
the spec describes, which touches a row only when the precondition
`tickets >= quantity` still holds. -/
def sqlUpdateDecrementGuarded (events : List EventRow) (qty i : Int) : List EventRow :=
  events.map (fun r =>
    if r.id == i && decide (qty ≤ r.tickets) then { r with tickets := r.tickets - qty } else r)

/-- `exports.confirmBooking(eventId, quantity, customerName = 'Guest')`,
embedded from `clientModel.js` lines 124–208. The argument being absent
is `JsValue.undef` (JavaScript applies the default parameter to
`undefined`). Statement counting: BEGIN, SELECT, UPDATE, INSERT,
COMMIT and ROLLBACK each count as one storage access. -/
def confirmBooking (f : Faults) (st : DBState)
    (eventId quantity customerName : JsValue) : Outcome :=
  let customerName := if customerName = .undef then .str "Guest" else customerName
  let parsedId := jsNumber eventId
  let parsedQty := jsNumber quantity
  if !isPosIntNum parsedId then
    ⟨.error .invalidId, st, 0, false⟩
  else if !isPosIntNum parsedQty then
    ⟨.error .invalidQty, st, 0, false⟩
  else
    let i := numOf parsedId
    let q := numOf parsedQty
    -- BEGIN IMMEDIATE TRANSACTION (begin failure is rejected without rollback)
    if f.beginErr then ⟨.error (.storage .sBegin), st, 1, false⟩
    else
      -- SELECT id, name, date, tickets FROM events WHERE id = ?
      if f.selectErr then ⟨.error (.storage .sSelect), st, 3, true⟩
      else
        match findEvent st.events i with
        | none => ⟨.error .notFound, st, 3, true⟩
        | some eventRow =>
          if eventRow.tickets < q then
            ⟨.error (.insufficient eventRow.tickets eventRow.name), st, 3, true⟩
          else
            -- UPDATE events SET tickets = tickets - ? WHERE id = ?
            if f.updateErr then ⟨.error (.storage .sUpdate), st, 4, true⟩
            else
              let working1 : DBState := { st with events := sqlUpdateDecrement st.events q i }
              -- INSERT INTO bookings (event_id, quantity, customer_name) VALUES (?, ?, ?)
              if f.insertErr then ⟨.error (.storage .sInsert), st, 5, true⟩
              else
                let bid := st.nextBookingId
                let working2 : DBState :=
                  { working1 with
                    bookings := working1.bookings
                      ++ [⟨bid, i, q, jsOr customerName (.str "Guest")⟩],
                    nextBookingId := bid + 1 }
                -- COMMIT (failure rolls the journal back to the snapshot)
                if f.commitErr then ⟨.error (.storage .sCommit), st, 6, true⟩
                else
                  ⟨.ok ⟨bid, ⟨eventRow.id, eventRow.name, eventRow.date⟩,
                        q, eventRow.tickets - q⟩,
                   working2, 5, false⟩

/-- `exports.getAllEvents()`: `SELECT * FROM events` with no `ORDER BY`
— the rows come back in stored (rowid) order. -/
def getAllEvents (st : DBState) : List EventRow := st.events

/-- The success payload of `purchaseTicket`. -/
structure PurchaseResult where
  message : String
  remaining : Int
  bookingId : Int
  event : EventSnapshot
deriving DecidableEq, Repr

/-- Result of one `purchaseTicket` call, mirroring `Outcome`. -/
structure PurchaseOutcome where
  result : Except BookingError PurchaseResult
  state : DBState
  accesses : Nat
  rolledBack : Bool
deriving DecidableEq, Repr

/-- `exports.purchaseTicket(eventId)`, embedded from `clientModel.js`
lines 55–64: delegate to `confirmBooking(eventId, 1, 'Direct Purchase')`
and repackage the resolution; rejections pass through unchanged. -/
def purchaseTicket (f : Faults) (st : DBState) (eventId : JsValue) : PurchaseOutcome :=
  let o := confirmBooking f st eventId (.num 1) (.str "Direct Purchase")
  { result := o.result.map (fun r =>
      ⟨"Ticket purchased successfully", r.remainingTickets, r.bookingId, r.event⟩),
    state := o.state,
    accesses := o.accesses,
    rolledBack := o.rolledBack }

/-- The `tickets` column an observer reads for event `i`
(`SELECT tickets FROM events WHERE id = ?`). -/
def ticketsOf (st : DBState) (i : Int) : Option Int :=
  (findEvent st.events i).map EventRow.tickets

/-- One booking request: the three arguments of a `confirmBooking` call. -/
abbrev Req : Type := JsValue × JsValue × JsValue

/-- Committed state after running a sequence of `confirmBooking` calls
against the fault-free driver (a failed call leaves the committed state
as it was). -/
def runBookings (st : DBState) : List Req → DBState
  | [] => st
  | r :: rs => runBookings (confirmBooking Faults.none st r.1 r.2.1 r.2.2).state rs

/-- Every observable (between-transaction) state along such a run,
including the initial and final ones. -/
def statesTrace (st : DBState) : List Req → List DBState
  | [] => [st]
  | r :: rs => st :: statesTrace (confirmBooking Faults.none st r.1 r.2.1 r.2.2).state rs

/-- Quantity a single call's settled result confirms against event `i`:
its requested quantity when it succeeded for that event, otherwise 0. -/
def confirmStepQty (res : Except BookingError Confirmation) (i : Int) : Int :=
  match res with
  | .ok conf => if conf.event.id == i then conf.requestedTickets else 0
  | .error _ => 0

/-- Total quantity confirmed against event `i` along a run: each call
that resolves successfully for event `i` contributes its requested
quantity, every other call contributes nothing. -/
def confirmedSum (st : DBState) (i : Int) : List Req → Int
  | [] => 0
  | r :: rs =>
    let o := confirmBooking Faults.none st r.1 r.2.1 r.2.2
    confirmStepQty o.result i + confirmedSum o.state i rs

/-- The `events` rows seeded by `shared-db/init.sql`, in insertion
(rowid) order: AUTOINCREMENT assigns ids 1, 2, 3. -/
def seedEvents : List EventRow :=
  [⟨1, "Homecoming Football Game", "2025-10-15", 50⟩,
   ⟨2, "Spring Concert", "2025-04-12", 75⟩,
   ⟨3, "Hackathon 2025", "2025-11-08", 100⟩]

/-- The database right after `init.sql` runs: seeded events, no
bookings yet, next booking id 1. -/
def seedState : DBState := ⟨seedEvents, [], 1⟩

/-- Lexicographic order on character lists, by code point. -/
def charListLe : List Char → List Char → Bool
  | [], _ => true
  | _ :: _, [] => false
  | a :: as, b :: bs =>
    if a.toNat < b.toNat then true
    else if b.toNat < a.toNat then false
    else charListLe as bs

/-- Lexicographic string order; on ISO `YYYY-MM-DD` date strings this is
chronological order. -/
def dateLe (a b : String) : Bool := charListLe a.toList b.toList

/-- Whether a list of event rows is ordered by date ascending. -/
def sortedByDateAsc : List EventRow → Bool
  | [] => true
  | [_] => true
  | a :: b :: rest => dateLe a.date b.date && sortedByDateAsc (b :: rest)

/-! ## Shape lemmas: one per branch of `confirmBooking` -/

theorem confirm_invalid_id (f : Faults) (st : DBState) (a b c : JsValue)
    (ha : isPosIntNum (jsNumber a) = false) :
    confirmBooking f st a b c = ⟨.error .invalidId, st, 0, false⟩ := by
  unfold confirmBooking
  simp [ha]

theorem confirm_invalid_qty (f : Faults) (st : DBState) (a b c : JsValue)
    (ha : isPosIntNum (jsNumber a) = true)
    (hb : isPosIntNum (jsNumber b) = false) :
    confirmBooking f st a b c = ⟨.error .invalidQty, st, 0, false⟩ := by
  unfold confirmBooking
  simp [ha, hb]

theorem confirm_not_found (st : DBState) (a b c : JsValue)
    (ha : isPosIntNum (jsNumber a) = true)
    (hb : isPosIntNum (jsNumber b) = true)
    (hfind : findEvent st.events (numOf (jsNumber a)) = none) :
    confirmBooking Faults.none st a b c = ⟨.error .notFound, st, 3, true⟩ := by
  unfold confirmBooking
  simp [ha, hb, Faults.none, hfind]

theorem confirm_insufficient (st : DBState) (a b c : JsValue) (row : EventRow)
    (ha : isPosIntNum (jsNumber a) = true)
    (hb : isPosIntNum (jsNumber b) = true)
    (hfind : findEvent st.events (numOf (jsNumber a)) = some row)
    (hlt : row.tickets < numOf (jsNumber b)) :
    confirmBooking Faults.none st a b c
      = ⟨.error (.insufficient row.tickets row.name), st, 3, true⟩ := by
  unfold confirmBooking
  simp [ha, hb, Faults.none, hfind, hlt]

theorem confirm_ok (st : DBState) (a b c : JsValue) (row : EventRow)
    (ha : isPosIntNum (jsNumber a) = true)
    (hb : isPosIntNum (jsNumber b) = true)
    (hfind : findEvent st.events (numOf (jsNumber a)) = some row)
    (hge : ¬ row.tickets < numOf (jsNumber b)) :
    confirmBooking Faults.none st a b c
      = ⟨.ok ⟨st.nextBookingId, ⟨row.id, row.name, row.date⟩,
             numOf (jsNumber b), row.tickets - numOf (jsNumber b)⟩,
         ⟨sqlUpdateDecrement st.events (numOf (jsNumber b)) (numOf (jsNumber a)),
          st.bookings ++ [⟨st.nextBookingId, numOf (jsNumber a), numOf (jsNumber b),
            jsOr (if c = .undef then .str "Guest" else c) (.str "Guest")⟩],
          st.nextBookingId + 1⟩, 5, false⟩ := by
  unfold confirmBooking
  simp [ha, hb, Faults.none, hfind, hge]

/-- Any rejection, under any injected faults, leaves the committed state
exactly as it was. -/
theorem confirm_error_state (f : Faults) (st : DBState) (a b c : JsValue)
    (e : BookingError)
    (h : (confirmBooking f st a b c).result = .error e) :
    (confirmBooking f st a b c).state = st := by
  by_cases ha : isPosIntNum (jsNumber a) <;>
    by_cases hb : isPosIntNum (jsNumber b) <;>
      by_cases hbe : f.beginErr <;>
        by_cases hse : f.selectErr <;>
          simp only [confirmBooking, ha, hb, hbe, hse, Bool.not_true, Bool.not_false,
            if_true, if_false, ite_true, ite_false] <;>
          try rfl
  cases hfind : findEvent st.events (numOf (jsNumber a)) with
  | none => simp [hfind]
  | some row =>
    simp only [hfind]
    by_cases hlt : row.tickets < numOf (jsNumber b) <;>
      by_cases hue : f.updateErr <;>
        by_cases hie : f.insertErr <;>
          by_cases hce : f.commitErr <;>
            simp only [hlt, hue, hie, hce, if_true, if_false, ite_true, ite_false] <;>
            try rfl
    all_goals
      exfalso
      simp only [confirmBooking, ha, hb, hbe, hse, hfind, hlt, hue, hie, hce,
        Bool.not_true, Bool.not_false, if_true, if_false, ite_true, ite_false] at h
      simp at h

/-- `find?` over the decrement update: the update preserves row ids, so
the row an observer finds afterwards is the transformed row found
before. -/
theorem findEvent_update (events : List EventRow) (qty i j : Int) :
    findEvent (sqlUpdateDecrement events qty i) j
      = (findEvent events j).map
          (fun r => if r.id == i then { r with tickets := r.tickets - qty } else r) := by
  induction events with
  | nil => rfl
  | cons r rs ih =>
    unfold findEvent sqlUpdateDecrement at *
    by_cases hri : r.id == i <;> by_cases hrj : r.id == j <;>
      simp_all [List.find?_cons, hri, hrj]

/-- A found event row carries the id it was searched by. -/
theorem findEvent_id (events : List EventRow) (i : Int) (r : EventRow)
    (h : findEvent events i = some r) : r.id = i := by
  have := List.find?_some h
  simpa using this

/-- Unpack a `ticketsOf` observation into the underlying row. -/
theorem ticketsOf_some (st : DBState) (i : Int) (t : Int)
    (h : ticketsOf st i = some t) :
    ∃ r, findEvent st.events i = some r ∧ r.id = i ∧ r.tickets = t := by
  unfold ticketsOf at h
  cases hf : findEvent st.events i with
  | none => simp [hf] at h
  | some r =>
    refine ⟨r, rfl, findEvent_id st.events i r hf, ?_⟩
    simp [hf] at h
    exact h

/-- After validation passed and the transaction opened, every rejection
issues a `ROLLBACK`. -/
theorem confirm_error_rollback (f : Faults) (st : DBState) (a b c : JsValue)
    (e : BookingError)
    (ha : isPosIntNum (jsNumber a) = true)
    (hb : isPosIntNum (jsNumber b) = true)
    (hbe : f.beginErr = false)
    (h : (confirmBooking f st a b c).result = .error e) :
    (confirmBooking f st a b c).rolledBack = true := by
  by_cases hse : f.selectErr
  · simp [confirmBooking, ha, hb, hbe, hse]
  · cases hfind : findEvent st.events (numOf (jsNumber a)) with
    | none => simp [confirmBooking, ha, hb, hbe, hse, hfind]
    | some row =>
      by_cases hlt : row.tickets < numOf (jsNumber b) <;>
        by_cases hue : f.updateErr <;>
          by_cases hie : f.insertErr <;>
            by_cases hce : f.commitErr <;>
              first
                | (simp [confirmBooking, ha, hb, hbe, hse, hfind, hlt, hue, hie, hce]
                   done)
                | exact absurd h (by
                    simp [confirmBooking, ha, hb, hbe, hse, hfind, hlt, hue, hie, hce])

/-! ## The claims -/

/-- **C2 counterexample.** The claim says the decrement UPDATE carries
`tickets >= quantity` in its WHERE clause, so that on a row with
`tickets = 1` an update of quantity 2 would affect zero rows. The
source's statement (`UPDATE events SET tickets = tickets - ? WHERE
id = ?`) has no such guard: at that concrete input it changes the row,
driving `tickets` to `-1`, while the guarded statement the spec
describes leaves the row untouched. -/
theorem C2_update_guard_cex :
    sqlUpdateDecrement [⟨1, "Jazz Night", "2025-12-01", 1⟩] 2 1
        = [⟨1, "Jazz Night", "2025-12-01", -1⟩]
    ∧ sqlUpdateDecrementGuarded [⟨1, "Jazz Night", "2025-12-01", 1⟩] 2 1
        = [⟨1, "Jazz Night", "2025-12-01", 1⟩] := by
  decide

/-- **C2 amended.** The decrement UPDATE is guarded only by the id
match — applied to any matching row it decrements unconditionally — and
the `tickets >= quantity` precondition is instead enforced on the row
read by the SELECT earlier in the same exclusive transaction: when it
fails, `confirmBooking` rejects with the insufficiency error and rolls
back without issuing the UPDATE at all (only BEGIN, SELECT and ROLLBACK
— three statements — reach the store). -/
theorem C2_update_guard_amended (st : DBState) (a b c : JsValue) (row : EventRow)
    (ha : isPosIntNum (jsNumber a) = true)
    (hb : isPosIntNum (jsNumber b) = true)
    (hfind : findEvent st.events (numOf (jsNumber a)) = some row)
    (hlt : row.tickets < numOf (jsNumber b)) :
    confirmBooking Faults.none st a b c
        = ⟨.error (.insufficient row.tickets row.name), st, 3, true⟩
    ∧ ∀ (evs : List EventRow) (q : Int) (r : EventRow), r ∈ evs →
        { r with tickets := r.tickets - q } ∈ sqlUpdateDecrement evs q r.id := by
  refine ⟨confirm_insufficient st a b c row ha hb hfind hlt, ?_⟩
  intro evs q r hr
  unfold sqlUpdateDecrement
  refine List.mem_map.mpr ⟨r, hr, ?_⟩
  simp

theorem C2_update_guard_amended_witness :
    confirmBooking Faults.none seedState (.num 1) (.num 51) .undef
      = ⟨.error (.insufficient 50 "Homecoming Football Game"), seedState, 3, true⟩ :=
  (C2_update_guard_amended seedState (.num 1) (.num 51) .undef
      ⟨1, "Homecoming Football Game", "2025-10-15", 50⟩
      (by decide) (by decide) (by decide) (by decide)).1

/-- **C3.** If `confirmBooking` fails for any reason — under any
combination of injected driver faults — the committed state isexactly
the initial one: the event's tickets are unchanged and no booking row
was inserted; and whenever the failure happened after the transaction
opened (validation passed and BEGIN succeeded), a ROLLBACK was issued
before the rejection surfaced. -/
theorem C3_atomicity (f : Faults) (st : DBState) (a b c : JsValue)
    (e : BookingError)
    (h : (confirmBooking f st a b c).result = .error e) :
    (confirmBooking f st a b c).state = st
    ∧ (confirmBooking f st a b c).state.bookings = st.bookings
    ∧ (∀ i, ticketsOf (confirmBooking f st a b c).state i = ticketsOf st i)
    ∧ (isPosIntNum (jsNumber a) = true → isPosIntNum (jsNumber b) = true →
        f.beginErr = false → (confirmBooking f st a b c).rolledBack = true) := by
  have hs := confirm_error_state f st a b c e h
  exact ⟨hs, by rw [hs], fun i => by rw [hs],
    fun ha hb hbe => confirm_error_rollback f st a b c e ha hb hbe h⟩

theorem C3_atomicity_witness :
    (confirmBooking Faults.none seedState (.num 1) (.num 51) .undef).state = seedState
    ∧ (confirmBooking Faults.none seedState (.num 1) (.num 51) .undef).state.bookings
        = seedState.bookings
    ∧ (∀ i, ticketsOf (confirmBooking Faults.none seedState (.num 1) (.num 51) .undef).state i
        = ticketsOf seedState i)
    ∧ (isPosIntNum (jsNumber (.num 1)) = true → isPosIntNum (jsNumber (.num 51)) = true →
        Faults.none.beginErr = false →
        (confirmBooking Faults.none seedState (.num 1) (.num 51) .undef).rolledBack = true) :=
  C3_atomicity Faults.none seedState (.num 1) (.num 51) .undef
    (.insufficient 50 "Homecoming Football Game") (by decide)

/-- **C5.** If either argument fails the positive-integer test that the
source applies to its `Number(...)` coercion, `confirmBooking` rejects
with an invalid-argument error (status 400) and the store is never
touched: zero SQL statements are issued, no transaction opens, and the
state is unchanged — under any driver fault configuration. -/
theorem C5_validation_precedes_io (f : Faults) (st : DBState) (a b c : JsValue)
    (h : isPosIntNum (jsNumber a) = false ∨ isPosIntNum (jsNumber b) = false) :
    ∃ e, (confirmBooking f st a b c).result = .error e
      ∧ errStatus e = some 400
      ∧ (e = .invalidId ∨ e = .invalidQty)
      ∧ (confirmBooking f st a b c).accesses = 0
      ∧ (confirmBooking f st a b c).state = st := by
  by_cases ha : isPosIntNum (jsNumber a)
  · have hb : isPosIntNum (jsNumber b) = false := by
      rcases h with h | h
      · rw [ha] at h; cases h
      · exact h
    exact ⟨.invalidQty, by simp [confirm_invalid_qty f st a b c ha hb, errStatus]⟩
  · have ha' : isPosIntNum (jsNumber a) = false := by simpa using ha
    exact ⟨.invalidId, by simp [confirm_invalid_id f st a b c ha', errStatus]⟩

theorem C5_validation_precedes_io_witness :
    ∃ e, (confirmBooking Faults.none seedState (.num (-1)) (.num 2) .undef).result = .error e
      ∧ errStatus e = some 400
      ∧ (e = .invalidId ∨ e = .invalidQty)
      ∧ (confirmBooking Faults.none seedState (.num (-1)) (.num 2) .undef).accesses = 0
      ∧ (confirmBooking Faults.none seedState (.num (-1)) (.num 2) .undef).state = seedState :=
  C5_validation_precedes_io Faults.none seedState (.num (-1)) (.num 2) .undef
    (Or.inl (by decide))

/-- **C6.** On success, `confirmBooking` returns the AUTOINCREMENT id
assigned to the inserted booking, the `(id, name, date)` snapshot of the
event row as read by the in-transaction SELECT, the requested quantity,
and `remainingTickets` computed as that row's `tickets` minus the
quantity (an in-memory subtraction, not a re-read). -/
theorem C6_success_payload (st : DBState) (a b c : JsValue) (conf : Confirmation)
    (h : (confirmBooking Faults.none st a b c).result = .ok conf) :
    ∃ row, findEvent st.events (numOf (jsNumber a)) = some row
      ∧ conf.bookingId = st.nextBookingId
      ∧ conf.event = ⟨row.id, row.name, row.date⟩
      ∧ conf.requestedTickets = numOf (jsNumber b)
      ∧ conf.remainingTickets = row.tickets - numOf (jsNumber b) := by
  by_cases ha : isPosIntNum (jsNumber a)
  case neg =>
    rw [confirm_invalid_id Faults.none st a b c (by simpa using ha)] at h
    cases h
  by_cases hb : isPosIntNum (jsNumber b)
  case neg =>
    rw [confirm_invalid_qty Faults.none st a b c ha (by simpa using hb)] at h
    cases h
  cases hfind : findEvent st.events (numOf (jsNumber a)) with
  | none =>
    rw [confirm_not_found st a b c ha hb hfind] at h
    cases h
  | some row =>
    by_cases hlt : row.tickets < numOf (jsNumber b)
    case pos =>
      rw [confirm_insufficient st a b c row ha hb hfind hlt] at h
      cases h
    rw [confirm_ok st a b c row ha hb hfind hlt] at h
    injection h with h'
    exact ⟨row, rfl, by rw [← h'], by rw [← h'], by rw [← h'], by rw [← h']⟩

theorem C6_success_payload_witness :
    ∃ row, findEvent seedState.events (numOf (jsNumber (.num 1))) = some row
      ∧ (1 : Int) = seedState.nextBookingId
      ∧ EventSnapshot.mk 1 "Homecoming Football Game" "2025-10-15"
          = ⟨row.id, row.name, row.date⟩
      ∧ (2 : Int) = numOf (jsNumber (.num 2))
      ∧ (48 : Int) = row.tickets - numOf (jsNumber (.num 2)) :=
  C6_success_payload seedState (.num 1) (.num 2) (.str "Alice")
    ⟨1, ⟨1, "Homecoming Football Game", "2025-10-15"⟩, 2, 48⟩ (by decide)

/-- **C7.** With valid arguments: when the event exists, the outcome is
the insufficiency rejection carrying the row's actual ticket count and
name exactly when `tickets < quantity`, and that rejection's message is
the source's string naming both; when no row matches, the outcome is the
not-found rejection instead. -/
theorem C7_insufficient_iff (st : DBState) (a b c : JsValue)
    (ha : isPosIntNum (jsNumber a) = true)
    (hb : isPosIntNum (jsNumber b) = true) :
    (∀ row, findEvent st.events (numOf (jsNumber a)) = some row →
      (((confirmBooking Faults.none st a b c).result
          = .error (.insufficient row.tickets row.name))
        ↔ row.tickets < numOf (jsNumber b))
      ∧ errMessage (.insufficient row.tickets row.name)
          = some ("Only " ++ toString row.tickets ++ " tickets remaining for " ++ row.name))
    ∧ (findEvent st.events (numOf (jsNumber a)) = none →
        (confirmBooking Faults.none st a b c).result = .error .notFound) := by
  constructor
  · intro row hfind
    refine ⟨⟨?_, ?_⟩, rfl⟩
    · intro h
      by_contra hge
      rw [confirm_ok st a b c row ha hb hfind hge] at h
      cases h
    · intro hlt
      rw [confirm_insufficient st a b c row ha hb hfind hlt]
  · intro hnone
    rw [confirm_not_found st a b c ha hb hnone]

theorem C7_insufficient_iff_witness :
    (confirmBooking Faults.none seedState (.num 1) (.num 51) .undef).result
      = .error (.insufficient 50 "Homecoming Football Game") :=
  (((C7_insufficient_iff seedState (.num 1) (.num 51) .undef (by decide) (by decide)).1
      ⟨1, "Homecoming Football Game", "2025-10-15", 50⟩ (by decide)).1).mpr (by decide)

/-- **C8 (code bug).** `getAllEvents` issues `SELECT * FROM events` with
no `ORDER BY`, so it returns the rows in stored (rowid) order. On the
very database `shared-db/init.sql` seeds, that order is Homecoming
(2025-10-15), Spring Concert (2025-04-12), Hackathon (2025-11-08) —
not date-ascending, contradicting the spec and the repository's own
test (`clientModel.test.js`, "should return events sorted by date"). -/
theorem C8_getAllEvents_unsorted :
    getAllEvents seedState = seedEvents
    ∧ sortedByDateAsc (getAllEvents seedState) = false
    ∧ sortedByDateAsc
        [⟨2, "Spring Concert", "2025-04-12", 75⟩,
         ⟨1, "Homecoming Football Game", "2025-10-15", 50⟩,
         ⟨3, "Hackathon 2025", "2025-11-08", 100⟩] = true := by
  exact ⟨rfl, by decide, by decide⟩

/-- **C9 counterexample.** The claim says a non-string `customerName` is
stored as `"Guest"`. The source stores `customerName || 'Guest'`, so the
truthy non-string `123` is stored as itself: booking event 1 for one
ticket with `customerName = 123` succeeds and the inserted row's
`customer_name` is the number `123`, not `"Guest"`. -/
theorem C9_guest_default_cex :
    (confirmBooking Faults.none seedState (.num 1) (.num 1) (.num 123)).result.isOk = true
    ∧ (confirmBooking Faults.none seedState (.num 1) (.num 1) (.num 123)).state.bookings
        = [⟨1, 1, 1, .num 123⟩]
    ∧ JsValue.num 123 ≠ JsValue.str "Guest" := by
  decide

/-- **C9 amended.** For every successful booking whose `customerName`
argument is absent (`undefined`, which triggers the `'Guest'` default
parameter) or falsy (the empty string, `null`, `false`, `0`, `NaN` —
which `customerName || 'Guest'` replaces), the stored row's
`customer_name` is `"Guest"`; truthy non-string values are stored as
given. -/
theorem C9_guest_default_amended (st : DBState) (a b c : JsValue)
    (conf : Confirmation)
    (hc : c = .undef ∨ truthy c = false)
    (h : (confirmBooking Faults.none st a b c).result = .ok conf) :
    (confirmBooking Faults.none st a b c).state.bookings
      = st.bookings
        ++ [⟨st.nextBookingId, numOf (jsNumber a), numOf (jsNumber b), .str "Guest"⟩] := by
  by_cases ha : isPosIntNum (jsNumber a)
  case neg =>
    rw [confirm_invalid_id Faults.none st a b c (by simpa using ha)] at h
    cases h
  by_cases hb : isPosIntNum (jsNumber b)
  case neg =>
    rw [confirm_invalid_qty Faults.none st a b c ha (by simpa using hb)] at h
    cases h
  cases hfind : findEvent st.events (numOf (jsNumber a)) with
  | none =>
    rw [confirm_not_found st a b c ha hb hfind] at h
    cases h
  | some row =>
    by_cases hlt : row.tickets < numOf (jsNumber b)
    case pos =>
      rw [confirm_insufficient st a b c row ha hb hfind hlt] at h
      cases h
    rw [confirm_ok st a b c row ha hb hfind hlt]
    have hguest : jsOr (if c = .undef then .str "Guest" else c) (.str "Guest")
        = .str "Guest" := by
      rcases hc with hc | hc
      · simp [hc, jsOr, truthy]
      · by_cases hcu : c = .undef
        · simp [hcu, jsOr, truthy]
        · simp [hcu, jsOr, hc]
    rw [hguest]

theorem C9_guest_default_amended_witness :
    (confirmBooking Faults.none seedState (.num 1) (.num 1) (.str "")).state.bookings
      = seedState.bookings
        ++ [⟨seedState.nextBookingId, numOf (jsNumber (.num 1)),
             numOf (jsNumber (.num 1)), .str "Guest"⟩] :=
  C9_guest_default_amended seedState (.num 1) (.num 1) (.str "")
    ⟨1, ⟨1, "Homecoming Football Game", "2025-10-15"⟩, 1, 49⟩
    (Or.inr (by decide)) (by decide)

/-- **C10.** `purchaseTicket(eventId)` is `confirmBooking(eventId, 1,
'Direct Purchase')` followed by a pure repackaging: same resulting
state (and statement count), the same rejection whenever the
confirmation rejects, and on success the payload carries the fixed
message together with the confirmation's remaining tickets, booking id
and event snapshot. -/
theorem C10_purchase_refines_confirm (f : Faults) (st : DBState) (eventId : JsValue) :
    (purchaseTicket f st eventId).state
        = (confirmBooking f st eventId (.num 1) (.str "Direct Purchase")).state
    ∧ (purchaseTicket f st eventId).accesses
        = (confirmBooking f st eventId (.num 1) (.str "Direct Purchase")).accesses
    ∧ (∀ e, (purchaseTicket f st eventId).result = .error e
        ↔ (confirmBooking f st eventId (.num 1) (.str "Direct Purchase")).result = .error e)
    ∧ (∀ conf,
        (confirmBooking f st eventId (.num 1) (.str "Direct Purchase")).result = .ok conf
        → (purchaseTicket f st eventId).result
            = .ok ⟨"Ticket purchased successfully", conf.remainingTickets,
                   conf.bookingId, conf.event⟩) := by
  refine ⟨rfl, rfl, ?_, ?_⟩
  · intro e
    unfold purchaseTicket
    cases ho : (confirmBooking f st eventId (.num 1) (.str "Direct Purchase")).result <;>
      simp [ho, Except.map]
  · intro conf hconf
    unfold purchaseTicket
    simp [hconf, Except.map]

theorem C10_purchase_refines_confirm_witness :
    (purchaseTicket Faults.none seedState (.num 2)).result
      = .ok ⟨"Ticket purchased successfully", 74, 1, ⟨2, "Spring Concert", "2025-04-12"⟩⟩ :=
  (C10_purchase_refines_confirm Faults.none seedState (.num 2)).2.2.2
    ⟨1, ⟨2, "Spring Concert", "2025-04-12"⟩, 1, 74⟩ (by decide)

/-- One call's effect on the observable ticket count of event `i`: it
drops by exactly the quantity the call confirmed against `i` (zero on
any failure or on success for another event), and it never drops below
zero because success requires `tickets >= quantity` on the row read in
the same transaction. -/
theorem confirm_tickets_step (st : DBState) (a b c : JsValue) (i t0 : Int)
    (ht : ticketsOf st i = some t0) (h0 : 0 ≤ t0) :
    ticketsOf (confirmBooking Faults.none st a b c).state i
      = some (t0 - confirmStepQty (confirmBooking Faults.none st a b c).result i)
    ∧ 0 ≤ t0 - confirmStepQty (confirmBooking Faults.none st a b c).result i := by
  cases hres : (confirmBooking Faults.none st a b c).result with
  | error e =>
    rw [confirm_error_state Faults.none st a b c e hres]
    simpa [confirmStepQty, ht] using h0
  | ok conf =>
    by_cases ha : isPosIntNum (jsNumber a)
    case neg =>
      rw [confirm_invalid_id Faults.none st a b c (by simpa using ha)] at hres
      cases hres
    by_cases hb : isPosIntNum (jsNumber b)
    case neg =>
      rw [confirm_invalid_qty Faults.none st a b c ha (by simpa using hb)] at hres
      cases hres
    cases hfind : findEvent st.events (numOf (jsNumber a)) with
    | none =>
      rw [confirm_not_found st a b c ha hb hfind] at hres
      cases hres
    | some row =>
      by_cases hlt : row.tickets < numOf (jsNumber b)
      case pos =>
        rw [confirm_insufficient st a b c row ha hb hfind hlt] at hres
        cases hres
      have hok := confirm_ok st a b c row ha hb hfind hlt
      rw [hok] at hres
      dsimp only at hres
      injection hres with hconf
      rw [hok]
      dsimp only
      subst hconf
      obtain ⟨rowi, hfi, hidi, hti⟩ := ticketsOf_some st i t0 ht
      have hpid : row.id = numOf (jsNumber a) := findEvent_id _ _ _ hfind
      unfold ticketsOf
      rw [findEvent_update, hfi]
      by_cases hii : row.id = i
      case pos =>
        have hfi' : findEvent st.events i = some row := by
          rw [← hii, hpid]
          exact hfind
        have hrr : rowi = row := by
          rw [hfi'] at hfi
          injection hfi with h'
          exact h'.symm
        subst hrr
        have hc1 : (rowi.id == numOf (jsNumber a)) = true := by
          simp [hpid]
        have hc2 : (rowi.id == i) = true := by simp [hii]
        have hpi : numOf (jsNumber a) = i := by
          rw [← hpid]
          exact hii
        constructor
        · simp [confirmStepQty, hc1, hc2, hti, hpid, hpi]
        · simp only [confirmStepQty, hc2, if_true, ite_true]
          omega
      case neg =>
        have hipid : numOf (jsNumber a) ≠ i := by
          rw [← hpid]
          exact hii
        have hc1 : (rowi.id == numOf (jsNumber a)) = false := by
          simp only [beq_eq_false_iff_ne, ne_eq, hidi]
          omega
        have hc2 : (row.id == i) = false := by
          simp only [beq_eq_false_iff_ne, ne_eq]
          exact hii
        constructor
        · simp [confirmStepQty, hc1, hc2, hti, hidi, Ne.symm hipid]
        · simpa [confirmStepQty, hc2] using h0

/-- **C1.** For any sequence of `confirmBooking` calls against the
store, the ticket count an observer reads for an event equals its
initial count minus the total quantity of the calls that confirmed
against it (failed calls contribute nothing and change nothing), and
the count stays non-negative in every observable between-transaction
state of the run. -/
theorem C1_no_overselling (reqs : List Req) (st : DBState) (i t0 : Int)
    (ht : ticketsOf st i = some t0) (h0 : 0 ≤ t0) :
    ticketsOf (runBookings st reqs) i = some (t0 - confirmedSum st i reqs)
    ∧ 0 ≤ t0 - confirmedSum st i reqs
    ∧ ∀ s ∈ statesTrace st reqs, ∀ t, ticketsOf s i = some t → 0 ≤ t := by
  induction reqs generalizing st t0 with
  | nil =>
    refine ⟨by simpa [runBookings, confirmedSum] using ht,
      by simpa [confirmedSum] using h0, ?_⟩
    intro s hs t htt
    simp only [statesTrace, List.mem_singleton] at hs
    subst hs
    rw [ht] at htt
    injection htt with h'
    omega
  | cons r rs ih =>
    obtain ⟨hstep, hstep0⟩ := confirm_tickets_step st r.1 r.2.1 r.2.2 i t0 ht h0
    obtain ⟨ih1, ih2, ih3⟩ :=
      ih (confirmBooking Faults.none st r.1 r.2.1 r.2.2).state
        (t0 - confirmStepQty (confirmBooking Faults.none st r.1 r.2.1 r.2.2).result i)
        hstep hstep0
    refine ⟨?_, ?_, ?_⟩
    · rw [show runBookings st (r :: rs)
          = runBookings (confirmBooking Faults.none st r.1 r.2.1 r.2.2).state rs from rfl]
      rw [ih1]
      rw [show confirmedSum st i (r :: rs)
          = confirmStepQty (confirmBooking Faults.none st r.1 r.2.1 r.2.2).result i
            + confirmedSum (confirmBooking Faults.none st r.1 r.2.1 r.2.2).state i rs from rfl]
      congr 1
      omega
    · rw [show confirmedSum st i (r :: rs)
          = confirmStepQty (confirmBooking Faults.none st r.1 r.2.1 r.2.2).result i
            + confirmedSum (confirmBooking Faults.none st r.1 r.2.1 r.2.2).state i rs from rfl]
      omega
    · intro s hs t htt
      rw [show statesTrace st (r :: rs)
          = st :: statesTrace (confirmBooking Faults.none st r.1 r.2.1 r.2.2).state rs
          from rfl] at hs
      rcases List.mem_cons.mp hs with hs | hs
      · subst hs
        rw [ht] at htt
        injection htt with h'
        omega
      · exact ih3 s hs t htt

theorem C1_no_overselling_witness :
    ticketsOf (runBookings seedState
        [((.num 1), (.num 2), (.str "Alice")), ((.num 1), (.num 3), .undef)]) 1
      = some (50 - confirmedSum seedState 1
          [((.num 1), (.num 2), (.str "Alice")), ((.num 1), (.num 3), .undef)])
    ∧ 0 ≤ 50 - confirmedSum seedState 1
          [((.num 1), (.num 2), (.str "Alice")), ((.num 1), (.num 3), .undef)]
    ∧ ∀ s ∈ statesTrace seedState
        [((.num 1), (.num 2), (.str "Alice")), ((.num 1), (.num 3), .undef)],
        ∀ t, ticketsOf s 1 = some t → 0 ≤ t :=
  C1_no_overselling
    [((.num 1), (.num 2), (.str "Alice")), ((.num 1), (.num 3), .undef)]
    seedState 1 50 (by decide) (by decide)

/-- **C4.** `BEGIN IMMEDIATE TRANSACTION` takes the store's write lock
at the start of each confirmation, so two simultaneous `confirmBooking
(eventId, 1)` calls execute in one of the two serial orders; this
theorem covers both (the calls differ only in their customer-name
metadata, over which it is universally quantified). Against an event
holding exactly one ticket, the call that runs first succeeds and the
other fails with the insufficiency rejection reporting 0 available and
the event's name — one success and one `InsufficientInventory`, never
two of either. -/
theorem C4_one_ticket_race (st : DBState) (a c1 c2 : JsValue) (row : EventRow)
    (ha : isPosIntNum (jsNumber a) = true)
    (hfind : findEvent st.events (numOf (jsNumber a)) = some row)
    (h1 : row.tickets = 1) :
    (∃ conf, (confirmBooking Faults.none st a (.num 1) c1).result = .ok conf)
    ∧ (confirmBooking Faults.none (confirmBooking Faults.none st a (.num 1) c1).state
        a (.num 1) c2).result = .error (.insufficient 0 row.name) := by
  have hb : isPosIntNum (jsNumber (.num 1)) = true := by decide
  have hq : numOf (jsNumber (.num 1)) = 1 := by decide
  have hge : ¬ row.tickets < numOf (jsNumber (.num 1)) := by omega
  have hok := confirm_ok st a (.num 1) c1 row ha hb hfind hge
  constructor
  · exact ⟨_, by rw [hok]⟩
  · rw [hok]
    dsimp only
    have hfind2 : findEvent
        (sqlUpdateDecrement st.events (numOf (jsNumber (.num 1))) (numOf (jsNumber a)))
        (numOf (jsNumber a))
        = some { row with tickets := row.tickets - numOf (jsNumber (.num 1)) } := by
      rw [findEvent_update, hfind]
      simp [findEvent_id st.events _ row hfind]
    have hlt2 : ({ row with tickets := row.tickets - numOf (jsNumber (.num 1)) }
        : EventRow).tickets < numOf (jsNumber (.num 1)) := by
      dsimp only
      omega
    have hins := confirm_insufficient
      ⟨sqlUpdateDecrement st.events (numOf (jsNumber (.num 1))) (numOf (jsNumber a)),
       st.bookings ++ [⟨st.nextBookingId, numOf (jsNumber a), numOf (jsNumber (.num 1)),
         jsOr (if c1 = .undef then .str "Guest" else c1) (.str "Guest")⟩],
       st.nextBookingId + 1⟩
      a (.num 1) c2 { row with tickets := row.tickets - numOf (jsNumber (.num 1)) }
      ha hb hfind2 hlt2
    rw [hins]
    dsimp only
    rw [show row.tickets - numOf (jsNumber (.num 1)) = 0 from by omega]

theorem C4_one_ticket_race_witness :
    (∃ conf, (confirmBooking Faults.none ⟨[⟨7, "Last Seat", "2025-12-31", 1⟩], [], 1⟩
        (.num 7) (.num 1) (.str "User1")).result = .ok conf)
    ∧ (confirmBooking Faults.none
        (confirmBooking Faults.none ⟨[⟨7, "Last Seat", "2025-12-31", 1⟩], [], 1⟩
          (.num 7) (.num 1) (.str "User1")).state
        (.num 7) (.num 1) (.str "User2")).result
      = .error (.insufficient 0 "Last Seat") :=
  C4_one_ticket_race ⟨[⟨7, "Last Seat", "2025-12-31", 1⟩], [], 1⟩
    (.num 7) (.str "User1") (.str "User2") ⟨7, "Last Seat", "2025-12-31", 1⟩
    (by decide) (by decide) (by decide)

end TigerTix
